import Mathlib

/-!
Verification development for the wttr-weather-mcp server
(`main.go`, `weather.go`).  The protocol dispatcher and the upstream
gateway are shallowly embedded: JSON values are an inductive type,
`json.Unmarshal` into the concrete Go structs of the source is modelled
by explicit decoding functions, the `WeatherService` interface is a
record of functions, and the per-line stdin loop body is a function
from a decoded input line to the list of emitted replies.
-/

namespace WttrMcp

/-- A JSON value as seen by `encoding/json`.  A number literal that is a
plain integer is `int`; any other number literal (with a fractional or
exponent part, e.g. `2.5` or `2e1`) is `frac`, since Go refuses to
unmarshal such a literal into an `int` field regardless of its value. -/
inductive Json where
  | null : Json
  | bool (b : Bool) : Json
  | int (n : Int) : Json
  | frac (lit : String) : Json
  | str (s : String) : Json
  | arr (elems : List Json) : Json
  | obj (fields : List (String × Json)) : Json
deriving Repr, Inhabited

/-- `RPCError` of main.go: code, message, optional diagnostic data. -/
structure RPCError where
  code : Int
  message : String
  data : Option Json
deriving Repr

/-- `JSONRPCRequest` of main.go.  Go decodes both an absent and an
explicit `null` identifier to a nil interface, so `id` is `none` in
both cases; `params` is the raw params payload, `none` when absent. -/
structure JSONRPCRequest where
  jsonrpc : String
  id : Option Json
  method : String
  params : Option Json
deriving Repr

/-- `JSONRPCResponse` of main.go. -/
structure JSONRPCResponse where
  jsonrpc : String
  id : Option Json
  result : Option Json
  error : Option RPCError
deriving Repr

/-- The `WeatherService` interface: three operations, each returning the
body text or a failure message. -/
structure WeatherService where
  GetCurrent : String → Except String String
  GetForecast : String → Int → Except String String
  GetDetailed : String → Except String String

def serverName : String := "wttr-weather"

def serverVersion : String := "1.0.0"

def toolGetCurrent : String := "get_current_weather"

def toolGetForecast : String := "get_forecast"

def toolGetDetailed : String := "get_weather_detailed"

/-- Object-field lookup as `encoding/json` resolves duplicate keys:
the last occurrence wins. -/
def lookupField (fields : List (String × Json)) (key : String) : Option Json :=
  ((fields.filter (fun kv => kv.1 = key)).map (fun kv => kv.2)).getLast?

/-- `json.Unmarshal(args, &struct{ Location string })`.  A nil raw
message fails; JSON `null` leaves the zero value; in an object, an
absent or `null` field leaves the zero value, a string sets it, any
other type is a decode error; other top-level shapes are errors. -/
def decodeCurrentArgs (args : Option Json) : Except String String :=
  match args with
  | none => .error "unexpected end of JSON input"
  | some .null => .ok ""
  | some (.obj fields) =>
      match lookupField fields "location" with
      | none => .ok ""
      | some .null => .ok ""
      | some (.str s) => .ok s
      | some _ => .error "cannot unmarshal into field location of type string"
  | some _ => .error "cannot unmarshal into struct"

/-- `json.Unmarshal(args, &struct{ Location string; Days int })` where
`Days` was pre-set to 3 (main.go line 260): absent or `null` `days`
leaves 3; an integer literal within the 64-bit machine-int range sets
it; an integer literal outside that range is a decode error (Go parses
the literal with `strconv.ParseInt` and reports an overflow as an
unmarshal type error); any other value is a decode error. -/
def decodeForecastArgs (args : Option Json) : Except String (String × Int) :=
  match args with
  | none => .error "unexpected end of JSON input"
  | some .null => .ok ("", 3)
  | some (.obj fields) =>
      let locR : Except String String :=
        match lookupField fields "location" with
        | none => .ok ""
        | some .null => .ok ""
        | some (.str s) => .ok s
        | some _ => .error "cannot unmarshal into field location of type string"
      let daysR : Except String Int :=
        match lookupField fields "days" with
        | none => .ok 3
        | some .null => .ok 3
        | some (.int n) =>
            if -9223372036854775808 ≤ n ∧ n ≤ 9223372036854775807 then .ok n
            else .error "cannot unmarshal number into field days of type int"
        | some _ => .error "cannot unmarshal into field days of type int"
      match locR, daysR with
      | .error e, _ => .error e
      | .ok _, .error e => .error e
      | .ok l, .ok d => .ok (l, d)
  | some _ => .error "cannot unmarshal into struct"

/-- `json.Unmarshal(req.Params, &struct{ Name string; Arguments
json.RawMessage })`: the raw `arguments` payload is captured verbatim
when the field is present (even when it is `null`) and is nil when it
is absent. -/
def decodeCallParams (params : Option Json) : Except String (String × Option Json) :=
  match params with
  | none => .error "unexpected end of JSON input"
  | some .null => .ok ("", none)
  | some (.obj fields) =>
      let nameR : Except String String :=
        match lookupField fields "name" with
        | none => .ok ""
        | some .null => .ok ""
        | some (.str s) => .ok s
        | some _ => .error "cannot unmarshal into field name of type string"
      match nameR with
      | .error e => .error e
      | .ok n => .ok (n, lookupField fields "arguments")
  | some _ => .error "cannot unmarshal into struct"

/-- `successResponse` of main.go. -/
def successResponse (id : Option Json) (text : String) : JSONRPCResponse :=
  { jsonrpc := "2.0", id := id,
    result := some (.obj
      [("content", .arr [.obj [("type", .str "text"), ("text", .str text)]])]),
    error := none }

/-- `errorResponse` of main.go: an in-band, error-flagged result. -/
def errorResponse (id : Option Json) (err : String) : JSONRPCResponse :=
  { jsonrpc := "2.0", id := id,
    result := some (.obj
      [("content", .arr [.obj [("type", .str "text"), ("text", .str ("Error: " ++ err))]]),
       ("isError", .bool true)]),
    error := none }

/-- `paramError` of main.go: a protocol error with code -32602. -/
def paramError (id : Option Json) (message : String) (data : Option Json) : JSONRPCResponse :=
  { jsonrpc := "2.0", id := id, result := none,
    error := some { code := -32602, message := message, data := data } }

/-- `callGetCurrent` of main.go. -/
def callGetCurrent (w : WeatherService) (id : Option Json) (args : Option Json) :
    JSONRPCResponse :=
  match decodeCurrentArgs args with
  | .error e => paramError id "Invalid arguments" (some (.str e))
  | .ok location =>
      if location = "" then paramError id "location is required" none
      else
        match w.GetCurrent location with
        | .error err => errorResponse id err
        | .ok result => successResponse id result

/-- `callGetForecast` of main.go, including the clamp-to-default of the
day count. -/
def callGetForecast (w : WeatherService) (id : Option Json) (args : Option Json) :
    JSONRPCResponse :=
  match decodeForecastArgs args with
  | .error e => paramError id "Invalid arguments" (some (.str e))
  | .ok (location, days0) =>
      if location = "" then paramError id "location is required" none
      else
        let days := if days0 < 1 ∨ days0 > 3 then 3 else days0
        match w.GetForecast location days with
        | .error err => errorResponse id err
        | .ok result => successResponse id result

/-- `callGetDetailed` of main.go. -/
def callGetDetailed (w : WeatherService) (id : Option Json) (args : Option Json) :
    JSONRPCResponse :=
  match decodeCurrentArgs args with
  | .error e => paramError id "Invalid arguments" (some (.str e))
  | .ok location =>
      if location = "" then paramError id "location is required" none
      else
        match w.GetDetailed location with
        | .error err => errorResponse id err
        | .ok result => successResponse id result

/-- `handleToolsCall` of main.go: decode the params payload, then
dispatch on the tool name. -/
def handleToolsCall (w : WeatherService) (req : JSONRPCRequest) : JSONRPCResponse :=
  match decodeCallParams req.params with
  | .error e =>
      { jsonrpc := "2.0", id := req.id, result := none,
        error := some { code := -32602, message := "Invalid params", data := some (.str e) } }
  | .ok (name, args) =>
      if name = toolGetCurrent then callGetCurrent w req.id args
      else if name = toolGetForecast then callGetForecast w req.id args
      else if name = toolGetDetailed then callGetDetailed w req.id args
      else
        { jsonrpc := "2.0", id := req.id, result := none,
          error := some { code := -32602, message := "Unknown tool: " ++ name, data := none } }

/-- `handleInitialize` of main.go. -/
def handleInitialize (req : JSONRPCRequest) : JSONRPCResponse :=
  { jsonrpc := "2.0", id := req.id,
    result := some (.obj
      [("protocolVersion", .str "2024-11-05"),
       ("serverInfo", .obj [("name", .str serverName), ("version", .str serverVersion)]),
       ("capabilities", .obj [("tools", .obj [])])]),
    error := none }

/-- The three static tool descriptors of `handleToolsList`. -/
def toolDescriptors : List Json :=
  [ .obj
      [("name", .str toolGetCurrent),
       ("description", .str "Get current weather conditions for a location (one-line summary)"),
       ("inputSchema", .obj
         [("type", .str "object"),
          ("properties", .obj
            [("location", .obj
              [("type", .str "string"),
               ("description", .str "City or location name (e.g. \"London\", \"New York\", \"Tokyo\")")])]),
          ("required", .arr [.str "location"])])],
    .obj
      [("name", .str toolGetForecast),
       ("description", .str "Get weather forecast for a location (text format with ASCII art)"),
       ("inputSchema", .obj
         [("type", .str "object"),
          ("properties", .obj
            [("location", .obj
              [("type", .str "string"),
               ("description", .str "City or location name (e.g. \"London\", \"New York\", \"Tokyo\")")]),
             ("days", .obj
              [("type", .str "integer"),
               ("description", .str "Number of forecast days (1-3, default: 3)"),
               ("default", .int 3),
               ("minimum", .int 1),
               ("maximum", .int 3)])]),
          ("required", .arr [.str "location"])])],
    .obj
      [("name", .str toolGetDetailed),
       ("description", .str "Get detailed weather data in JSON format (temperature, humidity, wind, UV index, etc.)"),
       ("inputSchema", .obj
         [("type", .str "object"),
          ("properties", .obj
            [("location", .obj
              [("type", .str "string"),
               ("description", .str "City or location name (e.g. \"London\", \"New York\", \"Tokyo\")")])]),
          ("required", .arr [.str "location"])])] ]

/-- `handleToolsList` of main.go. -/
def handleToolsList (req : JSONRPCRequest) : JSONRPCResponse :=
  { jsonrpc := "2.0", id := req.id,
    result := some (.obj [("tools", .arr toolDescriptors)]),
    error := none }

/-- `handleRequest` of main.go: the method switch. -/
def handleRequest (w : WeatherService) (req : JSONRPCRequest) : Option JSONRPCResponse :=
  if req.method = "initialize" then some (handleInitialize req)
  else if req.method = "initialized" then none
  else if req.method = "tools/list" then some (handleToolsList req)
  else if req.method = "tools/call" then some (handleToolsCall w req)
  else
    some { jsonrpc := "2.0", id := req.id, result := none,
           error := some { code := -32601, message := "Method not found", data := none } }

/-- One line of stdin as the `run` loop of main.go sees it: empty,
failing `json.Unmarshal` into a `JSONRPCRequest` (with the decoder
message), or a decoded request. -/
inductive Line where
  | empty : Line
  | malformed (parseErr : String) : Line
  | request (req : JSONRPCRequest) : Line

/-- The body of the `run` loop of main.go for one input line, returning
the list of replies emitted for it. -/
def processLine (w : WeatherService) (l : Line) : List JSONRPCResponse :=
  match l with
  | .empty => []
  | .malformed e =>
      [{ jsonrpc := "2.0", id := none, result := none,
         error := some { code := -32700, message := "Parse error", data := some (.str e) } }]
  | .request req =>
      match handleRequest w req with
      | none => []
      | some r => [r]

/-- The outcome of the HTTP exchange inside `fetch` of weather.go:
request construction failed, the round trip failed, reading the body
failed, or a response with a status code and a body was obtained. -/
inductive FetchOutcome where
  | reqErr (cause : String) : FetchOutcome
  | transportErr (cause : String) : FetchOutcome
  | readErr (cause : String) : FetchOutcome
  | response (status : Nat) (body : String) : FetchOutcome
deriving Repr

/-- `fetch` of weather.go, as a function of the HTTP outcome: each
failure is wrapped with its context, a status other than 200 becomes an
error carrying the status and body, and otherwise the raw body is
returned. -/
def fetch (o : FetchOutcome) : Except String String :=
  match o with
  | .reqErr e => .error ("creating request: " ++ e)
  | .transportErr e => .error ("fetching weather: " ++ e)
  | .readErr e => .error ("reading response: " ++ e)
  | .response status body =>
      if status ≠ 200 then
        .error ("wttr.in returned status " ++ toString status ++ ": " ++ body)
      else .ok body

/-- Uppercase hex digit, as the `upperhex` table of net/url. -/
def hexDigit (n : Nat) : Char :=
  if n < 10 then Char.ofNat (48 + n) else Char.ofNat (55 + n)

/-- Whether net/url escapes the byte `b` in a path segment
(`shouldEscape` with mode `encodePathSegment`): alphanumerics,
`-._~` and the sub-delims `$&+:=@` are kept, everything else —
including `/;,?` and space — is escaped. -/
def shouldEscapePathSegment (b : Nat) : Bool :=
  if 97 ≤ b ∧ b ≤ 122 then false
  else if 65 ≤ b ∧ b ≤ 90 then false
  else if 48 ≤ b ∧ b ≤ 57 then false
  else if b = 45 ∨ b = 95 ∨ b = 46 ∨ b = 126 then false
  else if b = 36 ∨ b = 38 ∨ b = 43 ∨ b = 58 ∨ b = 61 ∨ b = 64 then false
  else true

/-- `url.PathEscape` of net/url: percent-encode, byte by byte over the
UTF-8 encoding, every byte that `shouldEscapePathSegment` marks. -/
def pathEscape (s : String) : String :=
  String.join (s.toUTF8.toList.map (fun b =>
    let n := b.toNat
    if shouldEscapePathSegment n then
      "%" ++ String.singleton (hexDigit (n / 16)) ++ String.singleton (hexDigit (n % 16))
    else String.singleton (Char.ofNat n)))

/-- `WeatherClient` of weather.go, with the HTTP exchange for a URL
abstracted as a function. -/
structure WeatherClient where
  doRequest : String → FetchOutcome
  baseURL : String

/-- `c.fetch u` of weather.go. -/
def WeatherClient.fetchURL (c : WeatherClient) (rawURL : String) : Except String String :=
  fetch (c.doRequest rawURL)

/-- `WeatherClient.GetCurrent` of weather.go. -/
def WeatherClient.GetCurrent (c : WeatherClient) (location : String) : Except String String :=
  c.fetchURL (c.baseURL ++ "/" ++ pathEscape location ++ "?format=%l:+%c+%t+(%f)+%h+%w")

/-- `WeatherClient.GetForecast` of weather.go. -/
def WeatherClient.GetForecast (c : WeatherClient) (location : String) (days : Int) :
    Except String String :=
  c.fetchURL (c.baseURL ++ "/" ++ pathEscape location ++ "?" ++ toString days ++ "&lang=ru")

/-- `WeatherClient.GetDetailed` of weather.go. -/
def WeatherClient.GetDetailed (c : WeatherClient) (location : String) : Except String String :=
  c.fetchURL (c.baseURL ++ "/" ++ pathEscape location ++ "?format=j1")

/-- A stub service that records, in the reply text, which operation ran
and with which arguments; used to instantiate universally quantified
statements at concrete inputs. -/
def probe : WeatherService :=
  { GetCurrent := fun loc => .ok ("C:" ++ loc),
    GetForecast := fun loc days => .ok ("F:" ++ loc ++ ":" ++ toString days),
    GetDetailed := fun loc => .ok ("D:" ++ loc) }

/-- A stub service whose every operation fails with the given message. -/
def failingService (msg : String) : WeatherService :=
  { GetCurrent := fun _ => .error msg,
    GetForecast := fun _ _ => .error msg,
    GetDetailed := fun _ => .error msg }

/-- Whether a reply is a protocol error with code -32602 and no result
payload. -/
def invalidParamsReply (r : JSONRPCResponse) : Bool :=
  r.result.isNone &&
    (match r.error with
     | some er => decide (er.code = -32602)
     | none => false)

/-- Object-field projection on a `Json` value. -/
def jLookup (j : Json) (key : String) : Option Json :=
  match j with
  | .obj fields => lookupField fields key
  | _ => none

/-- Repeated object-field projection along a path of keys. -/
def jPath (j : Json) : List String → Option Json
  | [] => some j
  | k :: ks =>
      match jLookup j k with
      | some v => jPath v ks
      | none => none

section Lemmas

/-- Any error object produced by `callGetCurrent` carries code -32602. -/
lemma callGetCurrent_code (w : WeatherService) (id : Option Json) (args : Option Json)
    (er : RPCError) (h : (callGetCurrent w id args).error = some er) : er.code = -32602 := by
  unfold callGetCurrent at h
  cases hd : decodeCurrentArgs args with
  | error e =>
      rw [hd] at h
      simp only [paramError, Option.some.injEq] at h
      rw [← h]
  | ok l =>
      rw [hd] at h
      dsimp only at h
      by_cases hl : l = ""
      · rw [if_pos hl] at h
        simp only [paramError, Option.some.injEq] at h
        rw [← h]
      · rw [if_neg hl] at h
        cases hw : w.GetCurrent l with
        | error e => rw [hw] at h; simp [errorResponse] at h
        | ok t => rw [hw] at h; simp [successResponse] at h

/-- Any error object produced by `callGetForecast` carries code -32602. -/
lemma callGetForecast_code (w : WeatherService) (id : Option Json) (args : Option Json)
    (er : RPCError) (h : (callGetForecast w id args).error = some er) : er.code = -32602 := by
  unfold callGetForecast at h
  cases hd : decodeForecastArgs args with
  | error e =>
      rw [hd] at h
      simp only [paramError, Option.some.injEq] at h
      rw [← h]
  | ok p =>
      obtain ⟨l, d⟩ := p
      rw [hd] at h
      dsimp only at h
      by_cases hl : l = ""
      · rw [if_pos hl] at h
        simp only [paramError, Option.some.injEq] at h
        rw [← h]
      · rw [if_neg hl] at h
        cases hw : w.GetForecast l (if d < 1 ∨ d > 3 then 3 else d) with
        | error e => rw [hw] at h; simp [errorResponse] at h
        | ok t => rw [hw] at h; simp [successResponse] at h

/-- Any error object produced by `callGetDetailed` carries code -32602. -/
lemma callGetDetailed_code (w : WeatherService) (id : Option Json) (args : Option Json)
    (er : RPCError) (h : (callGetDetailed w id args).error = some er) : er.code = -32602 := by
  unfold callGetDetailed at h
  cases hd : decodeCurrentArgs args with
  | error e =>
      rw [hd] at h
      simp only [paramError, Option.some.injEq] at h
      rw [← h]
  | ok l =>
      rw [hd] at h
      dsimp only at h
      by_cases hl : l = ""
      · rw [if_pos hl] at h
        simp only [paramError, Option.some.injEq] at h
        rw [← h]
      · rw [if_neg hl] at h
        cases hw : w.GetDetailed l with
        | error e => rw [hw] at h; simp [errorResponse] at h
        | ok t => rw [hw] at h; simp [successResponse] at h

/-- Any error object produced by `handleToolsCall` carries code -32602. -/
lemma handleToolsCall_code (w : WeatherService) (req : JSONRPCRequest)
    (er : RPCError) (h : (handleToolsCall w req).error = some er) : er.code = -32602 := by
  unfold handleToolsCall at h
  cases hd : decodeCallParams req.params with
  | error e =>
      rw [hd] at h
      simp only [Option.some.injEq] at h
      rw [← h]
  | ok p =>
      obtain ⟨name, args⟩ := p
      rw [hd] at h
      dsimp only at h
      by_cases h1 : name = toolGetCurrent
      · rw [if_pos h1] at h; exact callGetCurrent_code w req.id args er h
      · rw [if_neg h1] at h
        by_cases h2 : name = toolGetForecast
        · rw [if_pos h2] at h; exact callGetForecast_code w req.id args er h
        · rw [if_neg h2] at h
          by_cases h3 : name = toolGetDetailed
          · rw [if_pos h3] at h; exact callGetDetailed_code w req.id args er h
          · rw [if_neg h3] at h
            simp only [Option.some.injEq] at h
            rw [← h]

/-- Any error object produced by `handleRequest` carries code -32601 or
-32602; in particular never -32700. -/
lemma handleRequest_code (w : WeatherService) (req : JSONRPCRequest)
    (r : JSONRPCResponse) (er : RPCError) (hr : handleRequest w req = some r)
    (h : r.error = some er) : er.code = -32601 ∨ er.code = -32602 := by
  unfold handleRequest at hr
  by_cases h1 : req.method = "initialize"
  · rw [if_pos h1] at hr
    simp only [Option.some.injEq] at hr
    rw [← hr] at h
    simp [handleInitialize] at h
  · rw [if_neg h1] at hr
    by_cases h2 : req.method = "initialized"
    · rw [if_pos h2] at hr; exact absurd hr (by simp)
    · rw [if_neg h2] at hr
      by_cases h3 : req.method = "tools/list"
      · rw [if_pos h3] at hr
        simp only [Option.some.injEq] at hr
        rw [← hr] at h
        simp [handleToolsList] at h
      · rw [if_neg h3] at hr
        by_cases h4 : req.method = "tools/call"
        · rw [if_pos h4] at hr
          simp only [Option.some.injEq] at hr
          rw [← hr] at h
          exact Or.inr (handleToolsCall_code w req er h)
        · rw [if_neg h4] at hr
          simp only [Option.some.injEq] at hr
          rw [← hr] at h
          simp only [Option.some.injEq] at h
          left
          rw [← h]

end Lemmas

/-- C4: a tools/call whose decoded tool name is none of the three known
tools is answered with a protocol error of code -32602 whose message
names the unknown tool, and a request whose method is none of the four
known methods is answered with a protocol error of code -32601. -/
theorem spec_C4_unknown_tool_and_method (w : WeatherService) (req : JSONRPCRequest)
    (name : String) (args : Option Json)
    (h1 : decodeCallParams req.params = .ok (name, args))
    (h2 : name ≠ toolGetCurrent) (h3 : name ≠ toolGetForecast) (h4 : name ≠ toolGetDetailed) :
    handleToolsCall w req =
      { jsonrpc := "2.0", id := req.id, result := none,
        error := some { code := -32602, message := "Unknown tool: " ++ name, data := none } }
    ∧ ∀ (req2 : JSONRPCRequest),
        req2.method ≠ "initialize" → req2.method ≠ "initialized" →
        req2.method ≠ "tools/list" → req2.method ≠ "tools/call" →
        handleRequest w req2 =
          some { jsonrpc := "2.0", id := req2.id, result := none,
                 error := some { code := -32601, message := "Method not found", data := none } } := by
  constructor
  · unfold handleToolsCall
    rw [h1]
    dsimp only
    rw [if_neg h2, if_neg h3, if_neg h4]
  · intro req2 m1 m2 m3 m4
    unfold handleRequest
    rw [if_neg m1, if_neg m2, if_neg m3, if_neg m4]

/-- Witness for C4 at the tool name "nonexistent_tool" and the method
"unknown/method". -/
theorem spec_C4_unknown_tool_and_method_w :
    handleToolsCall probe
      { jsonrpc := "2.0", id := some (.int 1), method := "tools/call",
        params := some (.obj [("name", .str "nonexistent_tool"), ("arguments", .obj [])]) } =
      { jsonrpc := "2.0", id := some (.int 1), result := none,
        error := some { code := -32602, message := "Unknown tool: " ++ "nonexistent_tool",
                        data := none } }
    ∧ handleRequest probe
        { jsonrpc := "2.0", id := some (.int 1), method := "unknown/method", params := none } =
      some { jsonrpc := "2.0", id := some (.int 1), result := none,
             error := some { code := -32601, message := "Method not found", data := none } } :=
  ⟨(spec_C4_unknown_tool_and_method probe
      { jsonrpc := "2.0", id := some (.int 1), method := "tools/call",
        params := some (.obj [("name", .str "nonexistent_tool"), ("arguments", .obj [])]) }
      "nonexistent_tool" (some (.obj [])) rfl (by decide) (by decide) (by decide)).1,
   (spec_C4_unknown_tool_and_method probe
      { jsonrpc := "2.0", id := some (.int 1), method := "tools/call",
        params := some (.obj [("name", .str "nonexistent_tool"), ("arguments", .obj [])]) }
      "nonexistent_tool" (some (.obj [])) rfl (by decide) (by decide) (by decide)).2
      { jsonrpc := "2.0", id := some (.int 1), method := "unknown/method", params := none }
      (by decide) (by decide) (by decide) (by decide)⟩

/-- C5 counterexample: a successfully parsed message that carries an
identifier but whose method is "initialized" receives no reply, so
identifier presence does not determine whether a reply is emitted. -/
theorem spec_C5_cex :
    processLine probe
      (.request { jsonrpc := "2.0", id := some (.int 7), method := "initialized",
                  params := none }) = [] := rfl

/-- C5 (amended): for every successfully parsed message, whether a
reply is emitted is determined by the method, not by identifier
presence: a message with method "initialized" never receives a reply,
and every other message receives exactly one reply, with or without an
identifier. -/
theorem spec_C5_reply_determined_by_method (w : WeatherService) (req : JSONRPCRequest) :
    (processLine w (.request req)).length =
      if req.method = "initialized" then 0 else 1 := by
  unfold processLine handleRequest
  dsimp only
  by_cases h1 : req.method = "initialize"
  · have h2 : req.method ≠ "initialized" := by rw [h1]; decide
    rw [if_pos h1, if_neg h2]
    rfl
  · rw [if_neg h1]
    by_cases h2 : req.method = "initialized"
    · rw [if_pos h2, if_pos h2]
      rfl
    · rw [if_neg h2, if_neg h2]
      by_cases h3 : req.method = "tools/list"
      · rw [if_pos h3]
        rfl
      · rw [if_neg h3]
        by_cases h4 : req.method = "tools/call"
        · rw [if_pos h4]
          rfl
        · rw [if_neg h4]
          rfl

/-- C6: a non-empty input line that fails to decode yields exactly one
reply, a protocol error with code -32700, message "Parse error" and no
identifier; and no reply to a line that did decode ever carries code
-32700. -/
theorem spec_C6_parse_error (w : WeatherService) (e : String) :
    processLine w (.malformed e) =
      [{ jsonrpc := "2.0", id := none, result := none,
         error := some { code := -32700, message := "Parse error", data := some (.str e) } }]
    ∧ ∀ (req : JSONRPCRequest) (r : JSONRPCResponse) (er : RPCError),
        r ∈ processLine w (.request req) → r.error = some er → er.code ≠ -32700 := by
  constructor
  · rfl
  · intro req r er hr herr
    have hmem : handleRequest w req = some r := by
      unfold processLine at hr
      dsimp only at hr
      cases hh : handleRequest w req with
      | none => rw [hh] at hr; simp at hr
      | some r2 => rw [hh] at hr; simp at hr; rw [hr]
    rcases handleRequest_code w req r er hmem herr with h | h <;> omega

/-- Witness for C6: a malformed line gets the single -32700 reply, and
a decoded unknown-method request gets a reply whose code is not
-32700. -/
theorem spec_C6_parse_error_w :
    processLine probe (.malformed "unexpected end of JSON input") =
      [{ jsonrpc := "2.0", id := none, result := none,
         error := some { code := -32700, message := "Parse error",
                         data := some (.str "unexpected end of JSON input") } }]
    ∧ ({ code := -32601, message := "Method not found", data := none } : RPCError).code ≠
        -32700 := by
  refine ⟨(spec_C6_parse_error probe "unexpected end of JSON input").1, ?_⟩
  exact (spec_C6_parse_error probe "x").2
    { jsonrpc := "2.0", id := some (.int 1), method := "unknown/method", params := none }
    { jsonrpc := "2.0", id := some (.int 1), result := none,
      error := some { code := -32601, message := "Method not found", data := none } }
    { code := -32601, message := "Method not found", data := none }
    (by simp [processLine, handleRequest]) rfl

/-- C9: every tools/list request succeeds and returns exactly the three
static descriptors, named get_current_weather, get_forecast and
get_weather_detailed, each requiring a string location; the get_forecast
descriptor declares an optional integer days with default 3, minimum 1
and maximum 3. -/
theorem spec_C9_tools_list (req : JSONRPCRequest) :
    handleToolsList req =
      { jsonrpc := "2.0", id := req.id,
        result := some (.obj [("tools", .arr toolDescriptors)]), error := none }
    ∧ (∀ w : WeatherService,
        handleRequest w { req with method := "tools/list" } =
          some (handleToolsList { req with method := "tools/list" }))
    ∧ toolDescriptors.length = 3
    ∧ toolDescriptors.map (fun t => jLookup t "name") =
        [some (.str "get_current_weather"), some (.str "get_forecast"),
         some (.str "get_weather_detailed")]
    ∧ toolDescriptors.map (fun t => jPath t ["inputSchema", "required"]) =
        [some (.arr [.str "location"]), some (.arr [.str "location"]),
         some (.arr [.str "location"])]
    ∧ toolDescriptors.map (fun t => jPath t ["inputSchema", "properties", "location", "type"]) =
        [some (.str "string"), some (.str "string"), some (.str "string")]
    ∧ toolDescriptors.map (fun t => jPath t ["inputSchema", "properties", "days", "type"]) =
        [none, some (.str "integer"), none]
    ∧ toolDescriptors.map (fun t => jPath t ["inputSchema", "properties", "days", "default"]) =
        [none, some (.int 3), none]
    ∧ toolDescriptors.map (fun t => jPath t ["inputSchema", "properties", "days", "minimum"]) =
        [none, some (.int 1), none]
    ∧ toolDescriptors.map (fun t => jPath t ["inputSchema", "properties", "days", "maximum"]) =
        [none, some (.int 3), none] :=
  ⟨rfl, fun _ => rfl, rfl, rfl, rfl, rfl, rfl, rfl, rfl, rfl⟩

/-- C1: when a tool invocation has decodable arguments and a non-empty
location and the weather operation fails, the reply carries no error
object: it is a successful reply whose result holds isError true and a
single text block whose text is "Error: " followed by the failure
detail. -/
theorem spec_C1_gateway_failure_in_band (w : WeatherService) (id : Option Json)
    (args : Option Json) (loc e : String) (hloc : loc ≠ "") :
    (decodeCurrentArgs args = .ok loc → w.GetCurrent loc = .error e →
      callGetCurrent w id args =
        { jsonrpc := "2.0", id := id,
          result := some (.obj
            [("content", .arr [.obj [("type", .str "text"),
                                     ("text", .str ("Error: " ++ e))]]),
             ("isError", .bool true)]),
          error := none })
    ∧ (∀ d : Int, decodeForecastArgs args = .ok (loc, d) →
        w.GetForecast loc (if d < 1 ∨ d > 3 then 3 else d) = .error e →
        callGetForecast w id args =
          { jsonrpc := "2.0", id := id,
            result := some (.obj
              [("content", .arr [.obj [("type", .str "text"),
                                       ("text", .str ("Error: " ++ e))]]),
               ("isError", .bool true)]),
            error := none })
    ∧ (decodeCurrentArgs args = .ok loc → w.GetDetailed loc = .error e →
        callGetDetailed w id args =
          { jsonrpc := "2.0", id := id,
            result := some (.obj
              [("content", .arr [.obj [("type", .str "text"),
                                       ("text", .str ("Error: " ++ e))]]),
               ("isError", .bool true)]),
            error := none }) := by
  refine ⟨?_, ?_, ?_⟩
  · intro hd hw
    unfold callGetCurrent
    rw [hd]
    dsimp only
    rw [if_neg hloc, hw]
    rfl
  · intro d hd hw
    unfold callGetForecast
    rw [hd]
    dsimp only
    rw [if_neg hloc, hw]
    rfl
  · intro hd hw
    unfold callGetDetailed
    rw [hd]
    dsimp only
    rw [if_neg hloc, hw]
    rfl

/-- Witness for C1: a service failing with "network timeout" at
location "Nowhere" yields error-flagged results for all three tools. -/
theorem spec_C1_gateway_failure_in_band_w :
    callGetCurrent (failingService "network timeout") (some (.int 1))
        (some (.obj [("location", .str "Nowhere")])) =
      { jsonrpc := "2.0", id := some (.int 1),
        result := some (.obj
          [("content", .arr [.obj [("type", .str "text"),
                                   ("text", .str "Error: network timeout")]]),
           ("isError", .bool true)]),
        error := none }
    ∧ callGetForecast (failingService "network timeout") (some (.int 1))
        (some (.obj [("location", .str "Nowhere")])) =
      { jsonrpc := "2.0", id := some (.int 1),
        result := some (.obj
          [("content", .arr [.obj [("type", .str "text"),
                                   ("text", .str "Error: network timeout")]]),
           ("isError", .bool true)]),
        error := none }
    ∧ callGetDetailed (failingService "network timeout") (some (.int 1))
        (some (.obj [("location", .str "Nowhere")])) =
      { jsonrpc := "2.0", id := some (.int 1),
        result := some (.obj
          [("content", .arr [.obj [("type", .str "text"),
                                   ("text", .str "Error: network timeout")]]),
           ("isError", .bool true)]),
        error := none } :=
  ⟨(spec_C1_gateway_failure_in_band (failingService "network timeout") (some (.int 1))
      (some (.obj [("location", .str "Nowhere")])) "Nowhere" "network timeout"
      (by decide)).1 rfl rfl,
   (spec_C1_gateway_failure_in_band (failingService "network timeout") (some (.int 1))
      (some (.obj [("location", .str "Nowhere")])) "Nowhere" "network timeout"
      (by decide)).2.1 3 rfl rfl,
   (spec_C1_gateway_failure_in_band (failingService "network timeout") (some (.int 1))
      (some (.obj [("location", .str "Nowhere")])) "Nowhere" "network timeout"
      (by decide)).2.2 rfl rfl⟩

/-- The decode of a two-field forecast arguments object with an
integer days literal: within the machine-int range it succeeds, outside
it fails as Go reports the overflow. -/
lemma decodeForecastArgs_days_int (loc : String) (d : Int) :
    decodeForecastArgs (some (.obj [("location", .str loc), ("days", .int d)])) =
      if -9223372036854775808 ≤ d ∧ d ≤ 9223372036854775807 then .ok (loc, d)
      else .error "cannot unmarshal number into field days of type int" := by
  unfold decodeForecastArgs
  dsimp only
  rw [show lookupField [("location", Json.str loc), ("days", Json.int d)] "location" =
        some (.str loc) from rfl,
      show lookupField [("location", Json.str loc), ("days", Json.int d)] "days" =
        some (.int d) from rfl]
  dsimp only
  by_cases hb : -9223372036854775808 ≤ d ∧ d ≤ 9223372036854775807
  · rw [if_pos hb, if_pos hb]
  · rw [if_neg hb, if_neg hb]

/-- C2 counterexample: a get_forecast invocation whose days is present
and outside [1,3] but beyond the machine integer range is answered
with a -32602 protocol error, not forwarded to the service with day
count 3 (which for the probe service would be a success reply with
text "F:Paris:3"). -/
theorem spec_C2_cex :
    callGetForecast probe (some (.int 1))
        (some (.obj [("location", .str "Paris"),
                     ("days", .int 1000000000000000000000000000000)])) =
      { jsonrpc := "2.0", id := some (.int 1), result := none,
        error := some { code := -32602, message := "Invalid arguments",
                        data := some (.str "cannot unmarshal number into field days of type int") } } := by
  rw [show callGetForecast probe (some (.int 1))
        (some (.obj [("location", .str "Paris"),
                     ("days", .int 1000000000000000000000000000000)])) =
      paramError (some (.int 1)) "Invalid arguments"
        (some (.str "cannot unmarshal number into field days of type int")) from rfl]
  rfl

/-- C2 (amended): with a non-empty location, get_forecast invokes the
service with day count 3 when days is absent; an integer days within
the machine-int range and in [1,3] is passed through unchanged; an
integer days within the machine-int range but outside [1,3] resets to
the default 3; an integer days literal beyond the machine-int range is
rejected with a -32602 protocol error and the service is never
invoked. -/
theorem spec_C2_forecast_days_policy (w : WeatherService) (id : Option Json)
    (loc : String) (d : Int) (hloc : loc ≠ "") :
    (callGetForecast w id (some (.obj [("location", .str loc)])) =
      match w.GetForecast loc 3 with
      | .error e => errorResponse id e
      | .ok t => successResponse id t)
    ∧ (1 ≤ d → d ≤ 3 →
        callGetForecast w id (some (.obj [("location", .str loc), ("days", .int d)])) =
          match w.GetForecast loc d with
          | .error e => errorResponse id e
          | .ok t => successResponse id t)
    ∧ ((d < 1 ∨ 3 < d) → -9223372036854775808 ≤ d → d ≤ 9223372036854775807 →
        callGetForecast w id (some (.obj [("location", .str loc), ("days", .int d)])) =
          match w.GetForecast loc 3 with
          | .error e => errorResponse id e
          | .ok t => successResponse id t)
    ∧ ((d < -9223372036854775808 ∨ 9223372036854775807 < d) →
        callGetForecast w id (some (.obj [("location", .str loc), ("days", .int d)])) =
          { jsonrpc := "2.0", id := id, result := none,
            error := some { code := -32602, message := "Invalid arguments",
                            data := some (.str "cannot unmarshal number into field days of type int") } }) := by
  refine ⟨?_, ?_, ?_, ?_⟩
  · have hd : decodeForecastArgs (some (.obj [("location", .str loc)])) = .ok (loc, 3) := rfl
    unfold callGetForecast
    rw [hd]
    dsimp only
    rw [if_neg hloc, if_neg (by omega : ¬((3 : Int) < 1 ∨ (3 : Int) > 3))]
  · intro hd1 hd2
    unfold callGetForecast
    rw [decodeForecastArgs_days_int, if_pos ⟨by omega, by omega⟩]
    dsimp only
    rw [if_neg hloc, if_neg (by omega : ¬(d < 1 ∨ d > 3))]
  · intro hout hb1 hb2
    unfold callGetForecast
    rw [decodeForecastArgs_days_int, if_pos ⟨hb1, hb2⟩]
    dsimp only
    rw [if_neg hloc, if_pos (by omega : d < 1 ∨ d > 3)]
  · intro hout
    unfold callGetForecast
    rw [decodeForecastArgs_days_int, if_neg (by omega :
      ¬(-9223372036854775808 ≤ d ∧ d ≤ 9223372036854775807))]
    rfl

/-- Witness for C2 at location "Paris" with days absent, 2, 5 and a
literal beyond the machine-int range. -/
theorem spec_C2_forecast_days_policy_w :
    callGetForecast probe (some (.int 1)) (some (.obj [("location", .str "Paris")])) =
      successResponse (some (.int 1)) "F:Paris:3"
    ∧ callGetForecast probe (some (.int 1))
        (some (.obj [("location", .str "Paris"), ("days", .int 2)])) =
      successResponse (some (.int 1)) "F:Paris:2"
    ∧ callGetForecast probe (some (.int 1))
        (some (.obj [("location", .str "Paris"), ("days", .int 5)])) =
      successResponse (some (.int 1)) "F:Paris:3"
    ∧ callGetForecast probe (some (.int 1))
        (some (.obj [("location", .str "Paris"), ("days", .int 18446744073709551616)])) =
      { jsonrpc := "2.0", id := some (.int 1), result := none,
        error := some { code := -32602, message := "Invalid arguments",
                        data := some (.str "cannot unmarshal number into field days of type int") } } :=
  ⟨(spec_C2_forecast_days_policy probe (some (.int 1)) "Paris" 2 (by decide)).1,
   (spec_C2_forecast_days_policy probe (some (.int 1)) "Paris" 2 (by decide)).2.1
     (by decide) (by decide),
   (spec_C2_forecast_days_policy probe (some (.int 1)) "Paris" 5 (by decide)).2.2.1
     (by decide) (by decide) (by decide),
   (spec_C2_forecast_days_policy probe (some (.int 1)) "Paris" 18446744073709551616
     (by decide)).2.2.2 (by decide)⟩

/-- C7: when a tool invocation has decodable arguments and a non-empty
location and the weather operation succeeds, the reply echoes the
identifier, carries no error object, and its result is a single text
content block holding the raw upstream body unchanged. -/
theorem spec_C7_success_raw_body (w : WeatherService) (id : Option Json)
    (args : Option Json) (loc body : String) (hloc : loc ≠ "") :
    (decodeCurrentArgs args = .ok loc → w.GetCurrent loc = .ok body →
      callGetCurrent w id args =
        { jsonrpc := "2.0", id := id,
          result := some (.obj
            [("content", .arr [.obj [("type", .str "text"), ("text", .str body)]])]),
          error := none })
    ∧ (∀ d : Int, decodeForecastArgs args = .ok (loc, d) →
        w.GetForecast loc (if d < 1 ∨ d > 3 then 3 else d) = .ok body →
        callGetForecast w id args =
          { jsonrpc := "2.0", id := id,
            result := some (.obj
              [("content", .arr [.obj [("type", .str "text"), ("text", .str body)]])]),
            error := none })
    ∧ (decodeCurrentArgs args = .ok loc → w.GetDetailed loc = .ok body →
        callGetDetailed w id args =
          { jsonrpc := "2.0", id := id,
            result := some (.obj
              [("content", .arr [.obj [("type", .str "text"), ("text", .str body)]])]),
            error := none }) := by
  refine ⟨?_, ?_, ?_⟩
  · intro hd hw
    unfold callGetCurrent
    rw [hd]
    dsimp only
    rw [if_neg hloc, hw]
    rfl
  · intro d hd hw
    unfold callGetForecast
    rw [hd]
    dsimp only
    rw [if_neg hloc, hw]
    rfl
  · intro hd hw
    unfold callGetDetailed
    rw [hd]
    dsimp only
    rw [if_neg hloc, hw]
    rfl

/-- Witness for C7, matching the end-to-end example of the spec: a stub
returning "London: clear 20C" for "London" yields the result content
block with exactly that text, identifier echoed, no error object. -/
theorem spec_C7_success_raw_body_w :
    callGetCurrent
        { GetCurrent := fun _ => .ok "London: clear 20C",
          GetForecast := fun _ _ => .ok "London: clear 20C",
          GetDetailed := fun _ => .ok "London: clear 20C" }
        (some (.int 1)) (some (.obj [("location", .str "London")])) =
      { jsonrpc := "2.0", id := some (.int 1),
        result := some (.obj
          [("content", .arr [.obj [("type", .str "text"),
                                   ("text", .str "London: clear 20C")]])]),
        error := none }
    ∧ callGetForecast
        { GetCurrent := fun _ => .ok "London: clear 20C",
          GetForecast := fun _ _ => .ok "London: clear 20C",
          GetDetailed := fun _ => .ok "London: clear 20C" }
        (some (.int 1)) (some (.obj [("location", .str "London")])) =
      { jsonrpc := "2.0", id := some (.int 1),
        result := some (.obj
          [("content", .arr [.obj [("type", .str "text"),
                                   ("text", .str "London: clear 20C")]])]),
        error := none }
    ∧ callGetDetailed
        { GetCurrent := fun _ => .ok "London: clear 20C",
          GetForecast := fun _ _ => .ok "London: clear 20C",
          GetDetailed := fun _ => .ok "London: clear 20C" }
        (some (.int 1)) (some (.obj [("location", .str "London")])) =
      { jsonrpc := "2.0", id := some (.int 1),
        result := some (.obj
          [("content", .arr [.obj [("type", .str "text"),
                                   ("text", .str "London: clear 20C")]])]),
        error := none } :=
  ⟨(spec_C7_success_raw_body
      { GetCurrent := fun _ => .ok "London: clear 20C",
        GetForecast := fun _ _ => .ok "London: clear 20C",
        GetDetailed := fun _ => .ok "London: clear 20C" }
      (some (.int 1)) (some (.obj [("location", .str "London")])) "London"
      "London: clear 20C" (by decide)).1 rfl rfl,
   (spec_C7_success_raw_body
      { GetCurrent := fun _ => .ok "London: clear 20C",
        GetForecast := fun _ _ => .ok "London: clear 20C",
        GetDetailed := fun _ => .ok "London: clear 20C" }
      (some (.int 1)) (some (.obj [("location", .str "London")])) "London"
      "London: clear 20C" (by decide)).2.1 3 rfl rfl,
   (spec_C7_success_raw_body
      { GetCurrent := fun _ => .ok "London: clear 20C",
        GetForecast := fun _ _ => .ok "London: clear 20C",
        GetDetailed := fun _ => .ok "London: clear 20C" }
      (some (.int 1)) (some (.obj [("location", .str "London")])) "London"
      "London: clear 20C" (by decide)).2.2 rfl rfl⟩

/-- C3: for each of the three tools, an invocation whose location is
absent or the empty string is answered with a protocol error of code
-32602 and no result payload, and the weather service is never
consulted (the reply does not depend on it); the same holds when the
arguments payload is absent entirely. -/
theorem spec_C3_missing_location (w w2 : WeatherService) (id : Option Json)
    (kvs : List (String × Json))
    (h : lookupField kvs "location" = none ∨ lookupField kvs "location" = some (.str "")) :
    (invalidParamsReply (callGetCurrent w id (some (.obj kvs))) = true
      ∧ callGetCurrent w id (some (.obj kvs)) = callGetCurrent w2 id (some (.obj kvs)))
    ∧ (invalidParamsReply (callGetForecast w id (some (.obj kvs))) = true
      ∧ callGetForecast w id (some (.obj kvs)) = callGetForecast w2 id (some (.obj kvs)))
    ∧ (invalidParamsReply (callGetDetailed w id (some (.obj kvs))) = true
      ∧ callGetDetailed w id (some (.obj kvs)) = callGetDetailed w2 id (some (.obj kvs)))
    ∧ invalidParamsReply (callGetCurrent w id none) = true
    ∧ invalidParamsReply (callGetForecast w id none) = true
    ∧ invalidParamsReply (callGetDetailed w id none) = true := by
  have hcur : decodeCurrentArgs (some (.obj kvs)) = .ok "" := by
    unfold decodeCurrentArgs
    dsimp only
    rcases h with h | h <;> rw [h]
  have ccur : ∀ v : WeatherService, callGetCurrent v id (some (.obj kvs)) =
      paramError id "location is required" none := by
    intro v
    unfold callGetCurrent
    rw [hcur]
    rfl
  have cdet : ∀ v : WeatherService, callGetDetailed v id (some (.obj kvs)) =
      paramError id "location is required" none := by
    intro v
    unfold callGetDetailed
    rw [hcur]
    rfl
  have hfor : ∃ r, invalidParamsReply r = true ∧
      ∀ v : WeatherService, callGetForecast v id (some (.obj kvs)) = r := by
    rcases hdy : lookupField kvs "days" with _ | v
    · have hdf : decodeForecastArgs (some (.obj kvs)) = .ok ("", 3) := by
        unfold decodeForecastArgs
        dsimp only
        rcases h with h | h <;> rw [h, hdy]
      exact ⟨paramError id "location is required" none, rfl, fun v => by
        unfold callGetForecast; rw [hdf]; rfl⟩
    · cases v with
      | null =>
          have hdf : decodeForecastArgs (some (.obj kvs)) = .ok ("", 3) := by
            unfold decodeForecastArgs
            dsimp only
            rcases h with h | h <;> rw [h, hdy]
          exact ⟨paramError id "location is required" none, rfl, fun v => by
            unfold callGetForecast; rw [hdf]; rfl⟩
      | int n =>
          by_cases hb : -9223372036854775808 ≤ n ∧ n ≤ 9223372036854775807
          · have hdf : decodeForecastArgs (some (.obj kvs)) = .ok ("", n) := by
              unfold decodeForecastArgs
              dsimp only
              rcases h with h | h <;> rw [h, hdy] <;> dsimp only <;> rw [if_pos hb]
            exact ⟨paramError id "location is required" none, rfl, fun v => by
              unfold callGetForecast; rw [hdf]; rfl⟩
          · have hdf : decodeForecastArgs (some (.obj kvs)) =
                .error "cannot unmarshal number into field days of type int" := by
              unfold decodeForecastArgs
              dsimp only
              rcases h with h | h <;> rw [h, hdy] <;> dsimp only <;> rw [if_neg hb]
            exact ⟨paramError id "Invalid arguments"
                (some (.str "cannot unmarshal number into field days of type int")), rfl,
              fun v => by unfold callGetForecast; rw [hdf]⟩
      | bool b =>
          have hdf : decodeForecastArgs (some (.obj kvs)) =
              .error "cannot unmarshal into field days of type int" := by
            unfold decodeForecastArgs
            dsimp only
            rcases h with h | h <;> rw [h, hdy]
          exact ⟨paramError id "Invalid arguments"
              (some (.str "cannot unmarshal into field days of type int")), rfl, fun v => by
            unfold callGetForecast; rw [hdf]⟩
      | frac q =>
          have hdf : decodeForecastArgs (some (.obj kvs)) =
              .error "cannot unmarshal into field days of type int" := by
            unfold decodeForecastArgs
            dsimp only
            rcases h with h | h <;> rw [h, hdy]
          exact ⟨paramError id "Invalid arguments"
              (some (.str "cannot unmarshal into field days of type int")), rfl, fun v => by
            unfold callGetForecast; rw [hdf]⟩
      | str s =>
          have hdf : decodeForecastArgs (some (.obj kvs)) =
              .error "cannot unmarshal into field days of type int" := by
            unfold decodeForecastArgs
            dsimp only
            rcases h with h | h <;> rw [h, hdy]
          exact ⟨paramError id "Invalid arguments"
              (some (.str "cannot unmarshal into field days of type int")), rfl, fun v => by
            unfold callGetForecast; rw [hdf]⟩
      | arr xs =>
          have hdf : decodeForecastArgs (some (.obj kvs)) =
              .error "cannot unmarshal into field days of type int" := by
            unfold decodeForecastArgs
            dsimp only
            rcases h with h | h <;> rw [h, hdy]
          exact ⟨paramError id "Invalid arguments"
              (some (.str "cannot unmarshal into field days of type int")), rfl, fun v => by
            unfold callGetForecast; rw [hdf]⟩
      | obj fs =>
          have hdf : decodeForecastArgs (some (.obj kvs)) =
              .error "cannot unmarshal into field days of type int" := by
            unfold decodeForecastArgs
            dsimp only
            rcases h with h | h <;> rw [h, hdy]
          exact ⟨paramError id "Invalid arguments"
              (some (.str "cannot unmarshal into field days of type int")), rfl, fun v => by
            unfold callGetForecast; rw [hdf]⟩
  obtain ⟨r, hr1, hr2⟩ := hfor
  refine ⟨⟨by rw [ccur w]; rfl, by rw [ccur w, ccur w2]⟩,
          ⟨by rw [hr2 w]; exact hr1, by rw [hr2 w, hr2 w2]⟩,
          ⟨by rw [cdet w]; rfl, by rw [cdet w, cdet w2]⟩,
          rfl, rfl, rfl⟩

/-- Witness for C3 at an empty arguments object. -/
theorem spec_C3_missing_location_w :
    invalidParamsReply (callGetCurrent probe (some (.int 1)) (some (.obj []))) = true :=
  (spec_C3_missing_location probe (failingService "boom") (some (.int 1)) []
    (Or.inl rfl)).1.1

/-- C8 counterexample: the status 201 is a 2xx success status, yet the
fetch routine reports a failure rather than returning the body. -/
theorem spec_C8_cex :
    fetch (.response 201 "created") = .error "wttr.in returned status 201: created" := rfl

/-- C8 (amended): the fetch routine shared by the three gateway
operations succeeds exactly on a completed exchange with status
exactly 200, returning the raw body; every other outcome — request
construction failure, transport failure, body-read failure, or any
status other than 200 (2xx statuses included) — is a failure value
carrying the underlying cause, or the status code and body. -/
theorem spec_C8_fetch_failure (o : FetchOutcome) :
    (∀ body, fetch o = .ok body ↔ o = .response 200 body)
    ∧ (∀ e, fetch (.transportErr e) = .error ("fetching weather: " ++ e))
    ∧ (∀ e, fetch (.readErr e) = .error ("reading response: " ++ e))
    ∧ (∀ e, fetch (.reqErr e) = .error ("creating request: " ++ e))
    ∧ (∀ st body, st ≠ 200 → fetch (.response st body) =
        .error ("wttr.in returned status " ++ toString st ++ ": " ++ body)) := by
  refine ⟨?_, fun e => rfl, fun e => rfl, fun e => rfl, ?_⟩
  · intro body
    constructor
    · intro hb
      cases o with
      | reqErr e => exact absurd hb (by simp [fetch])
      | transportErr e => exact absurd hb (by simp [fetch])
      | readErr e => exact absurd hb (by simp [fetch])
      | response st b =>
          unfold fetch at hb
          dsimp only at hb
          split at hb
          · exact absurd hb (by simp)
          · next hs =>
              have h200 : st = 200 := not_not.mp hs
              injection hb with hb2
              rw [h200, hb2]
    · intro ho
      rw [ho]
      rfl
  · intro st body hs
    unfold fetch
    dsimp only
    rw [if_pos hs]

/-- Witness for C8: a 404 fails with the status and body in the
message, and a 200 returns the raw body. -/
theorem spec_C8_fetch_failure_w :
    fetch (.response 404 "not found") = .error "wttr.in returned status 404: not found"
    ∧ fetch (.response 200 "body text") = .ok "body text" :=
  ⟨(spec_C8_fetch_failure (.response 404 "not found")).2.2.2.2 404 "not found" (by decide),
   ((spec_C8_fetch_failure (.response 200 "body text")).1 "body text").mpr rfl⟩

/-- C10 counterexample: a get_forecast invocation whose days argument
is present but is JSON null (not an integer) is not rejected: the
service is invoked with day count 3 and the reply is a success. -/
theorem spec_C10_cex :
    callGetForecast probe (some (.int 7))
        (some (.obj [("location", .str "Oslo"), ("days", Json.null)])) =
      successResponse (some (.int 7)) "F:Oslo:3" := rfl

/-- C10 (amended): a get_forecast invocation whose days argument is
present and is neither an integer nor JSON null (a fractional or
exponent-form number, a string, a boolean, an array or an object)
is answered with a protocol error of code -32602 and no result, and the
weather service is never consulted; a null days is treated like an
absent one. -/
theorem spec_C10_forecast_days_not_integer (w w2 : WeatherService) (id : Option Json)
    (kvs : List (String × Json)) (v : Json)
    (hv : lookupField kvs "days" = some v)
    (hnull : v ≠ .null) (hint : ∀ n : Int, v ≠ .int n) :
    invalidParamsReply (callGetForecast w id (some (.obj kvs))) = true
    ∧ callGetForecast w id (some (.obj kvs)) = callGetForecast w2 id (some (.obj kvs)) := by
  have hdf : ∃ e, decodeForecastArgs (some (.obj kvs)) = .error e := by
    unfold decodeForecastArgs
    dsimp only
    rw [hv]
    cases v with
    | null => exact absurd rfl hnull
    | int n => exact absurd rfl (hint n)
    | bool b =>
        rcases hl : lookupField kvs "location" with _ | lv
        · exact ⟨_, rfl⟩
        · cases lv <;> exact ⟨_, rfl⟩
    | frac q =>
        rcases hl : lookupField kvs "location" with _ | lv
        · exact ⟨_, rfl⟩
        · cases lv <;> exact ⟨_, rfl⟩
    | str s =>
        rcases hl : lookupField kvs "location" with _ | lv
        · exact ⟨_, rfl⟩
        · cases lv <;> exact ⟨_, rfl⟩
    | arr xs =>
        rcases hl : lookupField kvs "location" with _ | lv
        · exact ⟨_, rfl⟩
        · cases lv <;> exact ⟨_, rfl⟩
    | obj fs =>
        rcases hl : lookupField kvs "location" with _ | lv
        · exact ⟨_, rfl⟩
        · cases lv <;> exact ⟨_, rfl⟩
  obtain ⟨e, he⟩ := hdf
  have hall : ∀ v' : WeatherService, callGetForecast v' id (some (.obj kvs)) =
      paramError id "Invalid arguments" (some (.str e)) := by
    intro v'
    unfold callGetForecast
    rw [he]
  exact ⟨by rw [hall w]; rfl, by rw [hall w, hall w2]⟩

/-- Witness for C10 (amended) at a fractional days value. -/
theorem spec_C10_forecast_days_not_integer_w :
    invalidParamsReply (callGetForecast probe (some (.int 1))
      (some (.obj [("location", .str "Paris"), ("days", .frac "2.5")]))) = true :=
  (spec_C10_forecast_days_not_integer probe (failingService "boom") (some (.int 1))
    [("location", .str "Paris"), ("days", .frac "2.5")] (.frac "2.5") rfl
    (fun hq => Json.noConfusion hq) (fun _ hq => Json.noConfusion hq)).1

end WttrMcp
